import Mathlib

/-!
Shallow embedding of the dialogue intent-resolution engine of the
healthcare assistant demo application (`demo_app.py`), together with
proofs of the specified properties.

Python strings are modelled as Lean `String`s; all Python string
operations used by the source (`in`, `lower()`, `title()`, `strip()`,
`split()`, slicing, `len`) are re-implemented below over the character
list of the string, matching Python semantics on the inputs the program
uses. Python `None` is modelled as `Option.none`; a Python function
that can fall off the end of its body without a `return` statement is
modelled as returning `Option.none` at that point.
-/

namespace HealthcareDemo

set_option maxRecDepth 16384

/-- Python `needle in hay` on the character lists. -/
def hasSub (needle : List Char) : List Char → Bool
  | [] => needle.isEmpty
  | c :: rest => needle.isPrefixOf (c :: rest) || hasSub needle rest

/-- Python `needle in hay` for strings. -/
def pyIn (needle hay : String) : Bool :=
  hasSub needle.data hay.data

/-- Python `s.lower()`. -/
def pyLower (s : String) : String :=
  String.mk (s.data.map Char.toLower)

/-- One step of Python `s.title()`: the boolean records whether the
previous character was alphabetic. -/
def pyTitleGo : Bool → List Char → List Char
  | _, [] => []
  | prevAlpha, c :: rest =>
    (if c.isAlpha then (if prevAlpha then c.toLower else c.toUpper) else c) ::
      pyTitleGo c.isAlpha rest

/-- Python `s.title()`. -/
def pyTitle (s : String) : String :=
  String.mk (pyTitleGo false s.data)

/-- Python `s.strip()`. -/
def pyStrip (s : String) : String :=
  String.mk (((s.data.dropWhile Char.isWhitespace).reverse.dropWhile Char.isWhitespace).reverse)

/-- Helper for Python `s.split()`: accumulates the current word. -/
def splitWsGo (acc : List Char) : List Char → List (List Char)
  | [] => if acc.isEmpty then [] else [acc.reverse]
  | c :: rest =>
    if c.isWhitespace then
      if acc.isEmpty then splitWsGo [] rest
      else acc.reverse :: splitWsGo [] rest
    else splitWsGo (c :: acc) rest

/-- Python `s.split()` (split on whitespace runs, no empty tokens). -/
def pySplit (s : String) : List String :=
  (splitWsGo [] s.data).map String.mk

/-- Python `len(s)`. -/
def pyLen (s : String) : Nat :=
  s.data.length

/-- Python `s[:n]`. -/
def pyTake (s : String) (n : Nat) : String :=
  String.mk (s.data.take n)

/-- Python `s[n:]` (used only with `n ≤ len(s)`). -/
def pyDrop (s : String) (n : Nat) : String :=
  String.mk (s.data.drop n)

/-- Python `a or b` on two optional strings whose `some` values are
never the empty string (the only falsy string). -/
def pyOrOpt (a b : Option String) : Option String :=
  match a with
  | some v => some v
  | none => b

/-- Python `a or dflt` where `a` is an optional string and `dflt` a
string: the default is used when `a` is `None` or empty. -/
def pyOrStr (a : Option String) (dflt : String) : Option String :=
  match a with
  | some s => if s = "" then some dflt else some s
  | none => some dflt

/-- Python `f"{pre}{v}"` guarded by truthiness of `v`
(`pre + v if v else ''`). -/
def optClause (pre : String) : Option String → String
  | some v => pre ++ v
  | none => ""

/-- Python f-string interpolation `f"{v}"` of an optional value
(`None` renders as "None"). -/
def optStr : Option String → String
  | some s => s
  | none => "None"

/-! ## Entity catalog and detection (`demo_app.py` lines 218-233) -/

/-- The drug catalog, in source iteration order. -/
def drugsList : List String :=
  ["aspirin", "ibuprofen", "medication x", "allergy relief",
   "blood pressure med", "diabetes control", "antibiotic plus", "vitamin d3"]

/-- The region catalog, in source iteration order. -/
def regionsList : List String :=
  ["north america", "europe", "asia", "south america"]

/-- First catalog drug contained in the lowercased query, title-cased
(the `for drug in drugs: if drug in query_lower: ... break` loop). -/
def detectDrug (ql : String) : Option String :=
  (drugsList.find? fun d => pyIn d ql).map pyTitle

/-- First catalog region contained in the lowercased query, title-cased. -/
def detectRegion (ql : String) : Option String :=
  (regionsList.find? fun r => pyIn r ql).map pyTitle

/-! ## Resolution result (the dicts returned by the resolvers) -/

/-- The function-argument mapping: a Python dict with string keys and
values that are strings or `None`. -/
abbrev FunctionArgs := List (String × Option String)

/-- The dict returned by the query-resolution functions: tagged
"conversational", tagged "function_call", or the "conversational"
dict with `"error": True` returned when the service is unavailable. -/
inductive DemoResult where
  | conversational (response : Option String)
  | functionCall (functionName : String) (functionArgs : FunctionArgs) (response : Option String)
  | unavailableError (response : Option String)
deriving Repr, DecidableEq

/-- `true` exactly on the two normal result shapes (a dict tagged
"conversational" or "function_call" without the error flag). -/
def isWellTyped : DemoResult → Bool
  | .conversational _ => true
  | .functionCall _ _ _ => true
  | .unavailableError _ => false

/-- `true` when a possibly-absent result is present and well-typed. -/
def okResult : Option DemoResult → Bool
  | some r => isWellTyped r
  | none => false

/-- The five recognized analysis functions. -/
def recognizedFunctions : List String :=
  ["analyze_sales_trend", "compare_drugs", "regional_analysis",
   "generate_auto_insights", "answer_direct_question"]

/-- Key allowed in a function-argument mapping by the spec invariant. -/
def argKeyOk (k : String) : Bool :=
  k = "drug_name" || k = "region" || k = "question"

/-- The spec invariant on results: a function call names one of the
five recognized functions, uses only the known argument keys, and
never represents an absent argument as an empty string. -/
def resultInvariant : DemoResult → Bool
  | .functionCall name args _ =>
    recognizedFunctions.contains name &&
      args.all fun kv => argKeyOk kv.1 && kv.2 ≠ some ""
  | _ => true

/-! ## Canned responses (verbatim from the source, apostrophes escaped) -/

def helloResp : String :=
  "Hello! I\x27m your healthcare AI assistant. I can help you analyze sales data, create visualizations, and provide business insights. What would you like to know about today?"

def howAreYouResp : String :=
  "I\x27m doing great, thank you for asking! I\x27m here to help you with healthcare sales analysis. I can show you trends, compare drug performance, analyze regional data, or answer specific questions about your business. What would you like to explore?"

def capabilitiesResp : String :=
  "I can help you with several types of healthcare sales analysis:\n\n**Sales Trend Analysis** - Track how drugs perform over time\n**Drug Comparisons** - Compare performance between different medications  \n**Regional Analysis** - See how different regions are performing\n**Business Insights** - Get automatic insights and interesting findings\n**Direct Questions** - Answer specific questions like \"What\x27s our best seller?\"\n\nTry asking something like:\n- \"Show me sales trends for Aspirin\"\n- \"Compare drug performance\" \n- \"Which is our best selling drug?\"\n- \"Tell me something interesting about our business\"\n"

def thanksResp : String :=
  "You\x27re welcome! I\x27m always here to help with your healthcare data analysis needs. Feel free to ask me anything about sales trends, drug performance, or business insights!"

def farewellResp : String :=
  "Goodbye! It was great helping you with your healthcare data analysis. Come back anytime you need insights into your sales performance!"

def directQuestionResp : String :=
  "Let me look that up for you in our sales data."

def compareResp : String :=
  "I\x27ll compare the drug performance data for you."

def insightsResp : String :=
  "Let me analyze the data and show you some interesting insights about the healthcare business."

def clarifyResp : String :=
  "I\x27m not sure I understand what you\x27re looking for. Could you be more specific? For example, you could ask about sales trends, drug comparisons, regional performance, or specific questions about the business data."

def unavailableResp : String :=
  "I\x27m sorry, but the LLM service is not available right now. Please check the configuration."

def remoteDefaultResp : String :=
  "Let me analyze that data for you."

/-! ## The base rule cascade: `_demo_function_calling` (lines 169-302) -/

/-- Standalone-greeting / good-morning condition (line 174). -/
def greetingHit (ql : String) : Bool :=
  (["hello", "hi", "hey"].any fun g => pyIn (" " ++ g ++ " ") (" " ++ ql ++ " ")) ||
    (["good morning", "good afternoon"].any fun p => pyIn p ql)

/-- "How are you" condition (line 180). -/
def howAreYouHit (ql : String) : Bool :=
  ["how are you", "how\x27s it going", "what\x27s up"].any fun p => pyIn p ql

/-- Capability-question condition (line 186). -/
def capabilityHit (ql : String) : Bool :=
  ["what can you do", "what can you help", "how can you help", "what are your capabilities"].any
    fun p => pyIn p ql

/-- Thanks condition (line 205). -/
def thanksHit (ql : String) : Bool :=
  ["thank you", "thanks", "appreciate"].any fun p => pyIn p ql

/-- Farewell condition (line 211). -/
def farewellHit (ql : String) : Bool :=
  ["goodbye", "bye", "see you", "farewell"].any fun p => pyIn p ql

/-- Any of the five social branches of the base cascade. -/
def socialHit (ql : String) : Bool :=
  greetingHit ql || howAreYouHit ql || capabilityHit ql || thanksHit ql || farewellHit ql

/-- Direct-question condition (lines 236-238). -/
def directQuestionHit (ql : String) : Bool :=
  (["best seller", "top performer", "highest sales", "worst seller", "total sales",
    "revenue", "how much", "how many"].any fun p => pyIn p ql) ||
    (pyIn "which" ql && (["best", "top", "highest", "lowest", "worst"].any fun w => pyIn w ql)) ||
    (pyIn "what" ql && (["best", "top", "highest", "total"].any fun w => pyIn w ql))

/-- Trend condition (line 247). -/
def trendHit (ql : String) (detectedDrug : Option String) : Bool :=
  (["trend", "over time", "performance"].any fun w => pyIn w ql) ||
    ((["show", "display"].any fun w => pyIn w ql) && detectedDrug.isSome)

/-- Comparison condition (lines 256-258). -/
def comparisonHit (ql : String) : Bool :=
  (["compare", "comparison", "vs", "versus"].any fun w => pyIn w ql) ||
    (pyIn "all drug" ql && pyIn "performance" ql) ||
    (pyIn "drug performance" ql && pyIn "all" ql)

/-- Regional-analysis condition (line 267). -/
def regionalHit (ql : String) : Bool :=
  (["region", "geography", "where", "location"].any fun w => pyIn w ql) &&
    !(["what can you do", "how can you help"].any fun p => pyIn p ql)

/-- Auto-insights condition (line 276). -/
def insightsHit (ql : String) : Bool :=
  ["insights", "interesting", "findings", "summary", "overview",
   "tell me about", "business", "general"].any fun w => pyIn w ql

/-- Social-word exclusion of the bare-drug branch (line 285). -/
def bareDrugSocial (ql : String) : Bool :=
  ["hello", "hi", "thanks", "thank you", "goodbye", "bye"].any fun w => pyIn w ql

/-- Guard of the bare-drug branch: a drug was detected and no social
word occurs (line 285, `detected_drug and not any(...)`). -/
def bareDrugGuard (ql : String) (dd : Option String) : Bool :=
  dd.isSome && !bareDrugSocial ql

/-- Inner condition of the bare-drug branch (lines 287-289); Python
evaluates `A and B or C`. -/
def bareDrugCondition (ql : String) (dd : String) : Bool :=
  (decide ((pySplit ql).length ≤ 3) &&
      ([pyLower dd, "sales", "performance", "data", "info", "information"].any
        fun p => pyIn p ql)) ||
    decide (pyStrip ql = pyLower dd)

/-- The direct-question result dict (lines 239-244). -/
def directQuestionResult (query : String) : DemoResult :=
  .functionCall "answer_direct_question" [("question", some query)] (some directQuestionResp)

/-- The base trend-analysis result dict (lines 248-253). -/
def baseTrendResult (dd dr : Option String) : DemoResult :=
  .functionCall "analyze_sales_trend" [("drug_name", dd), ("region", dr)]
    (some ("I\x27ll analyze the sales trends for " ++
      (match dd with | some d => d | none => "all drugs") ++ optClause " in " dr ++ "."))

/-- The comparison result dict (lines 259-264 and 563-568). -/
def compareResult (dr : Option String) : DemoResult :=
  .functionCall "compare_drugs" [("region", dr)] (some compareResp)

/-- The regional-analysis result dict (lines 268-273). -/
def regionalResult (dd : Option String) : DemoResult :=
  .functionCall "regional_analysis" [("drug_name", dd)]
    (some ("I\x27ll analyze regional performance" ++ optClause " for " dd ++ "."))

/-- The auto-insights result dict (lines 277-282). -/
def insightsResult : DemoResult :=
  .functionCall "generate_auto_insights" [] (some insightsResp)

/-- The bare-drug-mention result dict (lines 290-295, identical at
lines 509-514). -/
def bareDrugResult (dd : String) (dr : Option String) : DemoResult :=
  .functionCall "analyze_sales_trend" [("drug_name", some dd), ("region", dr)]
    (some ("I\x27ll analyze the sales trends for " ++ dd ++ optClause " in " dr ++ "."))

/-- Body of the bare-drug-mention branch (lines 286-295): returns the
trend-analysis dict when the inner condition holds, and otherwise
`none` (the Python function falls off the end of its body without a
`return`). -/
def bareDrugStep (query : String) : Option DemoResult :=
  match detectDrug (pyLower query) with
  | some dd =>
    if bareDrugCondition (pyLower query) dd then
      some (bareDrugResult dd (detectRegion (pyLower query)))
    else none
  | none => none

/-- `_demo_function_calling` (lines 169-302). -/
def demoFunctionCalling (query : String) : Option DemoResult :=
  if greetingHit (pyLower query) then some (.conversational (some helloResp))
  else if howAreYouHit (pyLower query) then some (.conversational (some howAreYouResp))
  else if capabilityHit (pyLower query) then some (.conversational (some capabilitiesResp))
  else if thanksHit (pyLower query) then some (.conversational (some thanksResp))
  else if farewellHit (pyLower query) then some (.conversational (some farewellResp))
  else if directQuestionHit (pyLower query) then some (directQuestionResult query)
  else if trendHit (pyLower query) (detectDrug (pyLower query)) then
    some (baseTrendResult (detectDrug (pyLower query)) (detectRegion (pyLower query)))
  else if comparisonHit (pyLower query) then
    some (compareResult (detectRegion (pyLower query)))
  else if regionalHit (pyLower query) then
    some (regionalResult (detectDrug (pyLower query)))
  else if insightsHit (pyLower query) then some insightsResult
  else if bareDrugGuard (pyLower query) (detectDrug (pyLower query)) then bareDrugStep query
  else some (.conversational (some clarifyResp))

/-! ## The enhanced cascade: `_demo_function_calling_enhanced` (lines 536-582) -/

/-- Enhanced comparison condition (lines 559-562): the base comparison
condition plus the "compare all" phrase. -/
def enhancedComparisonHit (ql : String) : Bool :=
  comparisonHit ql || pyIn "compare all" ql

/-- Enhanced trend condition (lines 571-573). -/
def enhancedTrendHit (ql : String) (detectedDrug : Option String) : Bool :=
  detectedDrug.isSome ||
    (["trend", "trends", "sales", "performance"].any fun w => pyIn w ql) ||
    pyIn "show me sales" ql

/-- The enhanced trend-analysis result dict (lines 574-579). -/
def enhancedTrendResult (dd dr : Option String) : DemoResult :=
  .functionCall "analyze_sales_trend" [("drug_name", dd), ("region", dr)]
    (some ("I\x27ll analyze the sales trends" ++ optClause " for " dd ++
      optClause " in " dr ++ "."))

def demoFunctionCallingEnhanced (query : String) : Option DemoResult :=
  if enhancedComparisonHit (pyLower query) then
    some (compareResult (detectRegion (pyLower query)))
  else if enhancedTrendHit (pyLower query) (detectDrug (pyLower query)) then
    some (enhancedTrendResult (detectDrug (pyLower query)) (detectRegion (pyLower query)))
  else demoFunctionCalling query

/-! ## Conversation transcript and prior-call extraction (lines 412-449) -/

/-- One transcript turn (a `{"role": ..., "content": ...}` dict). -/
structure Turn where
  role : String
  content : String
deriving Repr, DecidableEq

/-- The context variables the extraction loop can set. -/
structure PriorContext where
  lastFunctionCall : Option String
  lastAnalysisType : Option String
  lastDrug : Option String
  lastRegion : Option String
deriving Repr, DecidableEq

/-- The hardcoded drug read-back from a marker turn's content
(lines 441-446; only three of the eight catalog drugs are checked,
and no region is ever extracted). -/
def markerDrug (content : String) : Option String :=
  if pyIn "aspirin" (pyLower content) then some "Aspirin"
  else if pyIn "ibuprofen" (pyLower content) then some "Ibuprofen"
  else if pyIn "medication x" (pyLower content) then some "Medication X"
  else none

/-- The record extracted from the first marker turn found
(lines 426-446). -/
def markerRecord (content : String) : PriorContext :=
  { lastFunctionCall :=
      if pyIn "analyze_sales_trend" content then some "analyze_sales_trend"
      else if pyIn "compare_drugs" content then some "compare_drugs"
      else if pyIn "regional_analysis" content then some "regional_analysis"
      else if pyIn "answer_direct_question" content then some "answer_direct_question"
      else none,
    lastAnalysisType :=
      if pyIn "analyze_sales_trend" content then some "trend"
      else if pyIn "compare_drugs" content then some "comparison"
      else if pyIn "regional_analysis" content then some "regional"
      else if pyIn "answer_direct_question" content then some "question"
      else none,
    lastDrug := markerDrug content,
    lastRegion := none }

/-- Whether a turn stops the reverse scan (an assistant turn whose
content contains the "Function:" marker, line 424). -/
def hasMarker (t : Turn) : Bool :=
  t.role = "assistant" && pyIn "Function:" t.content

/-- The `for msg in reversed(conversation_history)` loop, after the
history has been reversed. -/
def extractContextRev : List Turn → PriorContext
  | [] => { lastFunctionCall := none, lastAnalysisType := none,
            lastDrug := none, lastRegion := none }
  | t :: rest => if hasMarker t then markerRecord t.content else extractContextRev rest

/-- Prior-call extraction from the transcript, most recent first. -/
def extractContext (history : List Turn) : PriorContext :=
  extractContextRev history.reverse

/-! ## The contextual cascade: `_demo_function_calling_with_context` (lines 412-534) -/

/-- The explicit follow-up cue condition (lines 471-473). -/
def followUpCue (ql : String) (detectedRegion : Option String) : Bool :=
  (["what about", "show that for", "for the same", "but for", "show me that",
    "do the same", "similar analysis", "same thing"].any fun p => pyIn p ql) ||
    (detectedRegion.isSome && (["show", "that", "for"].any fun p => pyIn p ql))

/-- Guard of the contextual-follow-up block: a prior call exists and a
follow-up cue matches (line 471). -/
def followUpGuard (lfc : Option String) (ql : String) (detectedRegion : Option String) :
    Bool :=
  lfc.isSome && followUpCue ql detectedRegion

/-- Social-word exclusion of the contextual standalone-drug branch
(line 502). -/
def contextDrugSocial (ql : String) : Bool :=
  ["hello", "hi", "thanks", "thank you"].any fun w => pyIn w ql

/-- Guard of the regional-queries-with-context block (line 517,
`detected_region and not detected_drug and last_function_call`). -/
def regionContextGuard (detectedRegion detectedDrug lfc : Option String) : Bool :=
  detectedRegion.isSome && detectedDrug.isNone && lfc.isSome

/-- First inner condition of that block (line 518,
`last_function_call == "analyze_sales_trend" and last_drug`). -/
def regionTrendGuard (lfc ld : Option String) : Bool :=
  (lfc == some "analyze_sales_trend") && ld.isSome

/-- Inner condition of the contextual standalone-drug branch
(lines 504-506); Python evaluates `A and B or C`. -/
def contextBareDrugCondition (ql : String) (dd : String) : Bool :=
  (decide ((pySplit ql).length ≤ 3) &&
      ([pyLower dd, "sales", "performance", "data", "info", "information",
        "trends", "trend"].any fun p => pyIn p ql)) ||
    decide (pyStrip ql = pyLower dd)

/-- The contextual follow-up trend result dict (lines 477-485). -/
def followUpTrendResult (dd ld dr lr : Option String) : DemoResult :=
  .functionCall "analyze_sales_trend"
    [("drug_name", pyOrOpt dd ld), ("region", pyOrOpt dr lr)]
    (some ("I\x27ll show you the sales trend analysis" ++
      optClause " for " (pyOrOpt dd ld) ++ optClause " in " dr ++ "."))

/-- The contextual follow-up comparison result dict (lines 487-492). -/
def followUpCompareResult (dr lr : Option String) : DemoResult :=
  .functionCall "compare_drugs" [("region", pyOrOpt dr lr)]
    (some ("I\x27ll compare drug performance" ++ optClause " in " dr ++ "."))

/-- The contextual follow-up regional result dict (lines 493-499). -/
def followUpRegionalResult (dd ld : Option String) : DemoResult :=
  .functionCall "regional_analysis" [("drug_name", pyOrOpt dd ld)]
    (some ("I\x27ll analyze regional performance" ++
      optClause " for " (pyOrOpt dd ld) ++ "."))

/-- The region-with-context trend result dict (lines 518-524). -/
def regionContextTrendResult (ld dr : Option String) : DemoResult :=
  .functionCall "analyze_sales_trend" [("drug_name", ld), ("region", dr)]
    (some ("I\x27ll show you the sales trend for " ++ optStr ld ++
      " in " ++ optStr dr ++ "."))

/-- The region-with-context comparison result dict (lines 525-531). -/
def regionContextCompareResult (dr : Option String) : DemoResult :=
  .functionCall "compare_drugs" [("region", dr)]
    (some ("I\x27ll compare drug performance in " ++ optStr dr ++ "."))

/-- The regional-queries-with-context block of
`_demo_function_calling_with_context` followed by its fall-through to
the enhanced cascade (lines 517-534). -/
def withContextRegionStep (query : String) (ctx : PriorContext) : Option DemoResult :=
  if regionContextGuard (detectRegion (pyLower query)) (detectDrug (pyLower query))
      ctx.lastFunctionCall then
    if regionTrendGuard ctx.lastFunctionCall ctx.lastDrug then
      some (regionContextTrendResult ctx.lastDrug (detectRegion (pyLower query)))
    else if ctx.lastFunctionCall == some "compare_drugs" then
      some (regionContextCompareResult (detectRegion (pyLower query)))
    else demoFunctionCallingEnhanced query
  else demoFunctionCallingEnhanced query

/-- The standalone-drug block of `_demo_function_calling_with_context`
(lines 501-514) followed by its fall-through. -/
def withContextDrugStep (query : String) (ctx : PriorContext) : Option DemoResult :=
  match detectDrug (pyLower query) with
  | some dd =>
    if contextDrugSocial (pyLower query) then withContextRegionStep query ctx
    else if contextBareDrugCondition (pyLower query) dd then
      some (bareDrugResult dd (detectRegion (pyLower query)))
    else withContextRegionStep query ctx
  | none => withContextRegionStep query ctx

/-- `_demo_function_calling_with_context` after the prior-call
extraction: the contextual follow-up block (lines 470-499) followed by
its fall-through. -/
def withContextCore (query : String) (ctx : PriorContext) : Option DemoResult :=
  if followUpGuard ctx.lastFunctionCall (pyLower query) (detectRegion (pyLower query)) then
    if ctx.lastFunctionCall == some "analyze_sales_trend" then
      some (followUpTrendResult (detectDrug (pyLower query)) ctx.lastDrug
        (detectRegion (pyLower query)) ctx.lastRegion)
    else if ctx.lastFunctionCall == some "compare_drugs" then
      some (followUpCompareResult (detectRegion (pyLower query)) ctx.lastRegion)
    else if ctx.lastFunctionCall == some "regional_analysis" then
      some (followUpRegionalResult (detectDrug (pyLower query)) ctx.lastDrug)
    else withContextDrugStep query ctx
  else withContextDrugStep query ctx

/-- `_demo_function_calling_with_context` (lines 412-534). -/
def demoFunctionCallingWithContext (query : String) (conversationHistory : List Turn) :
    Option DemoResult :=
  withContextCore query (extractContext conversationHistory)

/-! ## The remote request and orchestrator: `process_query_with_functions`
(lines 304-410) -/

/-- History-turn compaction for the remote request (lines 363-366). -/
def compactContent (content : String) : String :=
  if 800 < pyLen content then
    pyTake content 400 ++ "\n...[analysis results]...\n" ++
      pyDrop content (pyLen content - 200)
  else content

/-- `conversation_history[-8:] if len(conversation_history) > 8 else
conversation_history` (line 360). -/
def recentWindow (history : List Turn) : List Turn :=
  if 8 < history.length then history.drop (history.length - 8) else history

/-- The system instruction (lines 322-353), with the data-context
summary interpolated. -/
def systemPrompt (dataContext : String) : String :=
  "You are an intelligent healthcare AI assistant specializing in pharmaceutical sales data analysis. You have full access to healthcare sales data and can perform sophisticated analyses using the available functions.\n\nAVAILABLE DATA:\n" ++
  dataContext ++
  "\n\nAVAILABLE DRUGS: Aspirin, Ibuprofen, Medication X, Allergy Relief, Blood Pressure Med, Diabetes Control, Antibiotic Plus, Vitamin D3\nAVAILABLE REGIONS: North America, Europe, Asia, South America\n\nYOUR CAPABILITIES:\nYou can analyze sales trends, compare drug performance, analyze regional data, generate business insights, and answer direct questions about the data.\n\nFUNCTION CALLING GUIDELINES:\n1. ALWAYS use functions for data analysis requests - never try to answer data questions without calling functions\n2. For casual conversation, greetings, or general questions: respond conversationally WITHOUT calling functions\n3. Use conversation context intelligently to understand follow-up questions and references\n\nCONTEXT UNDERSTANDING EXAMPLES:\n- User asks \"Which is our best seller?\" → Use answer_direct_question\n- User follows up with \"what about aspirin?\" → Use analyze_sales_trend for Aspirin (understanding they want Aspirin analysis)\n- User says \"show that for Europe\" → Apply Europe filter to the previous analysis type\n- User mentions just \"aspirin\" or \"aspirin sales\" → Use analyze_sales_trend for Aspirin\n- User asks \"compare them\" after drug discussion → Use compare_drugs\n- User asks about \"trends\" or \"performance\" → Use analyze_sales_trend\n- User asks for \"insights\" or \"interesting findings\" → Use generate_auto_insights\n- User asks about \"regions\" or \"geography\" → Use regional_analysis\n\nIMPORTANT: \n- Understand the full context of the conversation\n- Don\x27t just look for keywords - understand the user\x27s intent\n- When users reference previous analysis or ask follow-up questions, maintain context\n- Be intelligent about parameter selection based on conversation flow\n- Always provide helpful, brief responses when calling functions"

/-- The request message list handed to the remote service
(lines 319-373): the system instruction, the compacted recent history
window, and the new utterance. -/
def buildMessages (systemContent : String) (history : List Turn) (query : String) :
    List Turn :=
  ({ role := "system", content := systemContent } ::
      (recentWindow history).map fun m =>
        { role := m.role, content := compactContent m.content }) ++
    [{ role := "user", content := query }]

/-- One proposed tool call in the remote reply. `argumentsParse` is the
outcome of `json.loads` on the arguments payload; `none` models a
malformed payload (the raised `JSONDecodeError`). -/
structure RemoteToolCall where
  functionName : String
  argumentsParse : Option FunctionArgs
deriving Repr, DecidableEq

/-- Outcome of the remote chat-completion call: `raised` models any
exception (transport error, timeout), otherwise the reply message with
its tool calls and optional text content. -/
inductive RemoteOutcome where
  | raised
  | message (toolCalls : List RemoteToolCall) (content : Option String)
deriving Repr, DecidableEq

/-- `process_query_with_functions`. The remote service is modelled as a
function from the built request to an outcome; `available`, `demoMode`
and `clientPresent` model `self.available`, `self.demo_mode` and
`self.client is not None`. -/
def processQueryWithFunctions (available demoMode clientPresent : Bool)
    (remote : List Turn → RemoteOutcome) (query dataContext : String)
    (conversationHistory : List Turn) : Option DemoResult :=
  if !available then some (.unavailableError (some unavailableResp))
  else if demoMode || !clientPresent then
    demoFunctionCallingWithContext query conversationHistory
  else
    match remote (buildMessages (systemPrompt dataContext) conversationHistory query) with
    | .raised => demoFunctionCallingWithContext query conversationHistory
    | .message toolCalls content =>
      match toolCalls with
      | [] => some (.conversational content)
      | tc :: _ =>
        match tc.argumentsParse with
        | none => demoFunctionCallingWithContext query conversationHistory
        | some args =>
          some (.functionCall tc.functionName args (pyOrStr content remoteDefaultResp))

/-! ## Helper lemmas -/

theorem detectDrug_ne_empty (ql : String) : detectDrug ql ≠ some "" := by
  unfold detectDrug
  intro hmap
  rcases Option.map_eq_some'.mp hmap with ⟨d, hfind, htitle⟩
  have hd : d ∈ drugsList := List.mem_of_find?_eq_some hfind
  fin_cases hd <;> revert htitle <;> decide

theorem detectRegion_ne_empty (ql : String) : detectRegion ql ≠ some "" := by
  unfold detectRegion
  intro hmap
  rcases Option.map_eq_some'.mp hmap with ⟨d, hfind, htitle⟩
  have hd : d ∈ regionsList := List.mem_of_find?_eq_some hfind
  fin_cases hd <;> revert htitle <;> decide

theorem markerDrug_ne_empty (c : String) : markerDrug c ≠ some "" := by
  unfold markerDrug
  split_ifs <;> decide

theorem extractContextRev_lastDrug (l : List Turn) :
    (extractContextRev l).lastDrug ≠ some "" := by
  induction l with
  | nil => exact fun hc => by cases hc
  | cons t rest ih =>
    simp only [extractContextRev]
    split_ifs with hm
    · exact markerDrug_ne_empty t.content
    · exact ih

theorem extractContext_lastDrug (h : List Turn) :
    (extractContext h).lastDrug ≠ some "" :=
  extractContextRev_lastDrug h.reverse

theorem extractContextRev_lastRegion (l : List Turn) :
    (extractContextRev l).lastRegion = none := by
  induction l with
  | nil => rfl
  | cons t rest ih =>
    simp only [extractContextRev]
    split_ifs with hm
    · rfl
    · exact ih

theorem extractContext_lastRegion (h : List Turn) :
    (extractContext h).lastRegion = none :=
  extractContextRev_lastRegion h.reverse

theorem pyOrOpt_ne_empty {a b : Option String} (ha : a ≠ some "") (hb : b ≠ some "") :
    pyOrOpt a b ≠ some "" := by
  unfold pyOrOpt
  cases a
  · exact hb
  · exact ha

theorem inv_directQuestionResult (q : String)
    (hq : directQuestionHit (pyLower q) = true) :
    resultInvariant (directQuestionResult q) = true := by
  have hne : q ≠ "" := by
    rintro rfl
    revert hq
    decide
  simp [directQuestionResult, resultInvariant, argKeyOk, recognizedFunctions, hne]

theorem inv_baseTrendResult (dd dr : Option String)
    (hd : dd ≠ some "") (hr : dr ≠ some "") :
    resultInvariant (baseTrendResult dd dr) = true := by
  simp [baseTrendResult, resultInvariant, argKeyOk, recognizedFunctions, hd, hr]

theorem inv_compareResult (dr : Option String) (hr : dr ≠ some "") :
    resultInvariant (compareResult dr) = true := by
  simp [compareResult, resultInvariant, argKeyOk, recognizedFunctions, hr]

theorem inv_regionalResult (dd : Option String) (hd : dd ≠ some "") :
    resultInvariant (regionalResult dd) = true := by
  simp [regionalResult, resultInvariant, argKeyOk, recognizedFunctions, hd]

theorem inv_bareDrugResult (dd : String) (dr : Option String)
    (hd : dd ≠ "") (hr : dr ≠ some "") :
    resultInvariant (bareDrugResult dd dr) = true := by
  simp [bareDrugResult, resultInvariant, argKeyOk, recognizedFunctions, hd, hr]

theorem inv_enhancedTrendResult (dd dr : Option String)
    (hd : dd ≠ some "") (hr : dr ≠ some "") :
    resultInvariant (enhancedTrendResult dd dr) = true := by
  simp [enhancedTrendResult, resultInvariant, argKeyOk, recognizedFunctions, hd, hr]

theorem inv_followUpTrendResult (dd ld dr lr : Option String) (hd : dd ≠ some "")
    (hld : ld ≠ some "") (hr : dr ≠ some "") (hlr : lr ≠ some "") :
    resultInvariant (followUpTrendResult dd ld dr lr) = true := by
  simp [followUpTrendResult, resultInvariant, argKeyOk, recognizedFunctions,
    pyOrOpt_ne_empty hd hld, pyOrOpt_ne_empty hr hlr]

theorem inv_followUpCompareResult (dr lr : Option String)
    (hr : dr ≠ some "") (hlr : lr ≠ some "") :
    resultInvariant (followUpCompareResult dr lr) = true := by
  simp [followUpCompareResult, resultInvariant, argKeyOk, recognizedFunctions,
    pyOrOpt_ne_empty hr hlr]

theorem inv_followUpRegionalResult (dd ld : Option String)
    (hd : dd ≠ some "") (hld : ld ≠ some "") :
    resultInvariant (followUpRegionalResult dd ld) = true := by
  simp [followUpRegionalResult, resultInvariant, argKeyOk, recognizedFunctions,
    pyOrOpt_ne_empty hd hld]

theorem inv_regionContextTrendResult (ld dr : Option String)
    (hld : ld ≠ some "") (hr : dr ≠ some "") :
    resultInvariant (regionContextTrendResult ld dr) = true := by
  simp [regionContextTrendResult, resultInvariant, argKeyOk, recognizedFunctions, hld, hr]

theorem inv_regionContextCompareResult (dr : Option String) (hr : dr ≠ some "") :
    resultInvariant (regionContextCompareResult dr) = true := by
  simp [regionContextCompareResult, resultInvariant, argKeyOk, recognizedFunctions, hr]

theorem someDrug_ne_empty (ql : String) (dd : String)
    (h : detectDrug ql = some dd) : (some dd : Option String) ≠ some "" :=
  h ▸ detectDrug_ne_empty ql

theorem someDrug_ne_empty_str (ql : String) (dd : String)
    (h : detectDrug ql = some dd) : dd ≠ "" := by
  intro hc
  exact someDrug_ne_empty ql dd h (by rw [hc])

set_option maxHeartbeats 4000000 in
theorem bareDrugStep_inv (q : String) (r : DemoResult)
    (h : bareDrugStep q = some r) : resultInvariant r = true := by
  unfold bareDrugStep at h
  repeat' split at h
  all_goals cases h
  all_goals exact inv_bareDrugResult _ _ (someDrug_ne_empty_str _ _ (by assumption)) (detectRegion_ne_empty _)

set_option maxHeartbeats 4000000 in
theorem demoFunctionCalling_inv (q : String) (r : DemoResult)
    (h : demoFunctionCalling q = some r) : resultInvariant r = true := by
  unfold demoFunctionCalling at h
  repeat' split at h
  all_goals first
    | (cases h; rfl)
    | exact bareDrugStep_inv q r h
    | (cases h
       first
         | exact inv_directQuestionResult q (by assumption)
         | exact inv_baseTrendResult _ _ (detectDrug_ne_empty _) (detectRegion_ne_empty _)
         | exact inv_compareResult _ (detectRegion_ne_empty _)
         | exact inv_regionalResult _ (detectDrug_ne_empty _))

set_option maxHeartbeats 4000000 in
theorem demoFunctionCallingEnhanced_inv (q : String) (r : DemoResult)
    (h : demoFunctionCallingEnhanced q = some r) : resultInvariant r = true := by
  unfold demoFunctionCallingEnhanced at h
  repeat' split at h
  all_goals first
    | exact demoFunctionCalling_inv q r h
    | (cases h
       first
         | exact inv_compareResult _ (detectRegion_ne_empty _)
         | exact inv_enhancedTrendResult _ _ (detectDrug_ne_empty _) (detectRegion_ne_empty _))

set_option maxHeartbeats 4000000 in
theorem withContextRegionStep_inv (q : String) (ctx : PriorContext) (r : DemoResult)
    (hld : ctx.lastDrug ≠ some "") (h : withContextRegionStep q ctx = some r) :
    resultInvariant r = true := by
  unfold withContextRegionStep at h
  repeat' split at h
  all_goals first
    | exact demoFunctionCallingEnhanced_inv q r h
    | (cases h
       first
         | exact inv_regionContextTrendResult _ _ hld (detectRegion_ne_empty _)
         | exact inv_regionContextCompareResult _ (detectRegion_ne_empty _))

set_option maxHeartbeats 4000000 in
theorem withContextDrugStep_inv (q : String) (ctx : PriorContext) (r : DemoResult)
    (hld : ctx.lastDrug ≠ some "") (h : withContextDrugStep q ctx = some r) :
    resultInvariant r = true := by
  unfold withContextDrugStep at h
  repeat' split at h
  all_goals first
    | exact withContextRegionStep_inv q ctx r hld h
    | (cases h
       exact inv_bareDrugResult _ _ (someDrug_ne_empty_str _ _ (by assumption)) (detectRegion_ne_empty _))

set_option maxHeartbeats 4000000 in
theorem withContextCore_inv (q : String) (ctx : PriorContext) (r : DemoResult)
    (hld : ctx.lastDrug ≠ some "") (hlr : ctx.lastRegion ≠ some "")
    (h : withContextCore q ctx = some r) : resultInvariant r = true := by
  unfold withContextCore at h
  repeat' split at h
  all_goals first
    | exact withContextDrugStep_inv q ctx r hld h
    | (cases h
       first
         | exact inv_followUpTrendResult _ _ _ _ (detectDrug_ne_empty _) hld (detectRegion_ne_empty _) hlr
         | exact inv_followUpCompareResult _ _ (detectRegion_ne_empty _) hlr
         | exact inv_followUpRegionalResult _ _ (detectDrug_ne_empty _) hld)



set_option maxHeartbeats 4000000 in
theorem demoFunctionCalling_ok_of_no_drug (q : String)
    (hdd : detectDrug (pyLower q) = none) : okResult (demoFunctionCalling q) = true := by
  unfold demoFunctionCalling
  repeat' split
  all_goals first
    | rfl
    | (have hg : bareDrugGuard (pyLower q) (detectDrug (pyLower q)) = false := by
         rw [hdd]
         rfl
       have ht : bareDrugGuard (pyLower q) (detectDrug (pyLower q)) = true := by assumption
       rw [hg] at ht
       cases ht)

set_option maxHeartbeats 4000000 in
theorem demoFunctionCallingEnhanced_ok (q : String) :
    okResult (demoFunctionCallingEnhanced q) = true := by
  unfold demoFunctionCallingEnhanced
  repeat' split
  all_goals try rfl
  rcases hd2 : detectDrug (pyLower q) with _ | d
  · exact demoFunctionCalling_ok_of_no_drug q hd2
  · exfalso
    refine (by assumption : ¬enhancedTrendHit (pyLower q) (detectDrug (pyLower q)) = true) ?_
    rw [hd2]
    simp [enhancedTrendHit]

set_option maxHeartbeats 4000000 in
theorem withContextRegionStep_ok (q : String) (ctx : PriorContext) :
    okResult (withContextRegionStep q ctx) = true := by
  unfold withContextRegionStep
  repeat' split
  all_goals first | rfl | exact demoFunctionCallingEnhanced_ok q

set_option maxHeartbeats 4000000 in
theorem withContextDrugStep_ok (q : String) (ctx : PriorContext) :
    okResult (withContextDrugStep q ctx) = true := by
  unfold withContextDrugStep
  repeat' split
  all_goals first | rfl | exact withContextRegionStep_ok q ctx

set_option maxHeartbeats 4000000 in
theorem withContextCore_ok (q : String) (ctx : PriorContext) :
    okResult (withContextCore q ctx) = true := by
  unfold withContextCore
  repeat' split
  all_goals first | rfl | exact withContextDrugStep_ok q ctx

theorem demoFunctionCallingWithContext_ok (q : String) (h : List Turn) :
    okResult (demoFunctionCallingWithContext q h) = true :=
  withContextCore_ok q (extractContext h)


theorem extractContextRev_append_no_marker (l r : List Turn)
    (hl : ∀ u ∈ l, hasMarker u = false) :
    extractContextRev (l ++ r) = extractContextRev r := by
  induction l with
  | nil => rfl
  | cons t rest ih =>
    have ht := hl t (List.mem_cons_self t rest)
    simp only [List.cons_append, extractContextRev, ht, Bool.false_eq_true, if_false]
    exact ih fun u hu => hl u (List.mem_cons_of_mem t hu)

theorem extractContext_no_marker (h : List Turn)
    (hh : ∀ u ∈ h, hasMarker u = false) :
    extractContext h = ⟨none, none, none, none⟩ := by
  unfold extractContext
  have hmain := extractContextRev_append_no_marker h.reverse []
    (fun u hu => hh u (List.mem_reverse.mp hu))
  rw [List.append_nil] at hmain
  exact hmain

theorem extractContext_first_marker (pre post : List Turn) (t : Turn)
    (ht : hasMarker t = true) (hpost : ∀ u ∈ post, hasMarker u = false) :
    extractContext (pre ++ t :: post) = markerRecord t.content := by
  unfold extractContext
  rw [List.reverse_append, List.reverse_cons, List.append_assoc]
  rw [extractContextRev_append_no_marker post.reverse _
    (fun u hu => hpost u (List.mem_reverse.mp hu))]
  simp only [List.singleton_append, extractContextRev, ht, if_true]

theorem markerRecord_lastDrug_cases (c : String) :
    (markerRecord c).lastDrug = none ∨ (markerRecord c).lastDrug = some "Aspirin" ∨
      (markerRecord c).lastDrug = some "Ibuprofen" ∨
      (markerRecord c).lastDrug = some "Medication X" := by
  show markerDrug c = none ∨ markerDrug c = some "Aspirin" ∨
    markerDrug c = some "Ibuprofen" ∨ markerDrug c = some "Medication X"
  unfold markerDrug
  split_ifs <;> simp

theorem markerRecord_no_insights (c : String) :
    (markerRecord c).lastFunctionCall ≠ some "generate_auto_insights" := by
  unfold markerRecord
  split_ifs <;> simp

theorem withContextCore_eq_enhanced (q : String) (ctx : PriorContext)
    (hcue : followUpCue (pyLower q) (detectRegion (pyLower q)) = false)
    (hdd : detectDrug (pyLower q) = none)
    (hdr : detectRegion (pyLower q) = none) :
    withContextCore q ctx = demoFunctionCallingEnhanced q := by
  have hg : followUpGuard ctx.lastFunctionCall (pyLower q) (detectRegion (pyLower q)) = false := by
    unfold followUpGuard
    rw [hcue]
    exact Bool.and_false _
  have hg3 : regionContextGuard (detectRegion (pyLower q)) none ctx.lastFunctionCall = false := by
    unfold regionContextGuard
    rw [hdr]
    rfl
  unfold withContextCore withContextDrugStep withContextRegionStep
  simp only [hg, hdd, hg3, Bool.false_eq_true, if_false]


/-! ## Claim theorems -/

/-- C1: when remote resolution is attempted (service available, not in
demo mode, client initialized) and the remote call fails — by raising
(transport error, timeout) or by returning a tool call whose arguments
payload does not parse — `process_query_with_functions` catches the
failure and returns the rule-based contextual resolution for that same
query, which is always a present, well-typed result tagged
"conversational" or "function_call"; no exception propagates. -/
theorem remote_failure_falls_back_well_typed (q dc : String) (h : List Turn)
    (name : String) (c : Option String) :
    processQueryWithFunctions true false true (fun _ => RemoteOutcome.raised) q dc h =
        demoFunctionCallingWithContext q h ∧
    processQueryWithFunctions true false true
        (fun _ => RemoteOutcome.message [{ functionName := name, argumentsParse := none }] c)
        q dc h =
        demoFunctionCallingWithContext q h ∧
    okResult (demoFunctionCallingWithContext q h) = true :=
  ⟨rfl, rfl, demoFunctionCallingWithContext_ok q h⟩

/-- C2: on the two-turn transcript recording a prior
`analyze_sales_trend` call for Aspirin, resolving "show that for
Europe" through the rule-based contextual path inherits the drug from
the prior call and takes the region from the new utterance. -/
theorem context_roundtrip_aspirin_europe :
    demoFunctionCallingWithContext "show that for Europe"
      [⟨"user", "Show me sales trends for Aspirin"⟩,
       ⟨"assistant", "Function: analyze_sales_trend Args: drug_name Aspirin"⟩] =
      some (.functionCall "analyze_sales_trend"
        [("drug_name", some "Aspirin"), ("region", some "Europe")]
        (some "I\x27ll show you the sales trend analysis for Aspirin in Europe.")) := by
  decide

/-- C3 counterexample: `answer_direct_question` is in the five-function
enum and can be recorded as the Prior-Call Record, and "do the same" is
an explicit follow-up cue, yet the contextual resolver does not
re-issue it — it falls through to the generic clarification reply. -/
theorem reissue_counterexample :
    recognizedFunctions.contains "answer_direct_question" = true ∧
    (extractContext
        [⟨"assistant", "Function: answer_direct_question"⟩]).lastFunctionCall =
      some "answer_direct_question" ∧
    followUpCue (pyLower "do the same") (detectRegion (pyLower "do the same")) = true ∧
    demoFunctionCallingWithContext "do the same"
      [⟨"assistant", "Function: answer_direct_question"⟩] =
      some (.conversational (some clarifyResp)) := by
  refine ⟨by decide, by decide, by decide, by decide⟩

/-- C3 amended: on a follow-up cue with a Prior-Call Record, the same
prior function is re-issued with newly detected entities overriding
and unspecified ones inherited — but only for the three prior functions
`analyze_sales_trend`, `compare_drugs` and `regional_analysis`
(a `generate_auto_insights` record is never produced by the extractor,
and an `answer_direct_question` record falls through the block). -/
theorem contextual_reissue (q : String) (h : List Turn)
    (hcue : followUpCue (pyLower q) (detectRegion (pyLower q)) = true) :
    ((extractContext h).lastFunctionCall = some "analyze_sales_trend" →
      demoFunctionCallingWithContext q h =
        some (followUpTrendResult (detectDrug (pyLower q)) (extractContext h).lastDrug
          (detectRegion (pyLower q)) (extractContext h).lastRegion)) ∧
    ((extractContext h).lastFunctionCall = some "compare_drugs" →
      demoFunctionCallingWithContext q h =
        some (followUpCompareResult (detectRegion (pyLower q))
          (extractContext h).lastRegion)) ∧
    ((extractContext h).lastFunctionCall = some "regional_analysis" →
      demoFunctionCallingWithContext q h =
        some (followUpRegionalResult (detectDrug (pyLower q))
          (extractContext h).lastDrug)) ∧
    (∀ c, (markerRecord c).lastFunctionCall ≠ some "generate_auto_insights") := by
  refine ⟨fun hfc => ?_, fun hfc => ?_, fun hfc => ?_, markerRecord_no_insights⟩ <;>
  · unfold demoFunctionCallingWithContext withContextCore
    rw [hfc]
    have hg : followUpGuard ((extractContext h).lastFunctionCall) (pyLower q)
        (detectRegion (pyLower q)) = true := by
      unfold followUpGuard
      rw [hfc, hcue]
      rfl
    rw [hfc] at hg
    simp only [hg,
      show ((some "analyze_sales_trend" : Option String) == some "analyze_sales_trend") = true
        from rfl,
      show ((some "compare_drugs" : Option String) == some "analyze_sales_trend") = false
        from rfl,
      show ((some "compare_drugs" : Option String) == some "compare_drugs") = true from rfl,
      show ((some "regional_analysis" : Option String) == some "analyze_sales_trend") = false
        from rfl,
      show ((some "regional_analysis" : Option String) == some "compare_drugs") = false
        from rfl,
      show ((some "regional_analysis" : Option String) == some "regional_analysis") = true
        from rfl,
      Bool.false_eq_true, if_false, if_true]

/-- C3 witness: a concrete compare-drugs reissue. -/
theorem contextual_reissue_witness :
    demoFunctionCallingWithContext "what about Europe"
      [{ role := "assistant", content := "Function: compare_drugs" }] =
      some (followUpCompareResult (detectRegion (pyLower "what about Europe"))
        (extractContext [⟨"assistant", "Function: compare_drugs"⟩]).lastRegion) :=
  (contextual_reissue "what about Europe"
    [{ role := "assistant", content := "Function: compare_drugs" }] (by decide)).2.1
    (by decide)

/-- C4 counterexample: a marker turn naming `analyze_sales_trend` with
drug "Vitamin D3" and region "Europe" in its text yields a record with
no drug and no region, while the shared Entity Catalog matcher does
find both in the same text — the extraction does not reuse the catalog
matcher and knows only three hardcoded drugs and no regions. -/
theorem extraction_not_catalog_counterexample :
    extractContext
      [⟨"assistant", "Function: analyze_sales_trend for Vitamin D3 in Europe"⟩] =
      ⟨some "analyze_sales_trend", some "trend", none, none⟩ ∧
    detectDrug (pyLower "Function: analyze_sales_trend for Vitamin D3 in Europe") =
      some "Vitamin D3" ∧
    detectRegion (pyLower "Function: analyze_sales_trend for Vitamin D3 in Europe") =
      some "Europe" := by
  refine ⟨by decide, by decide, by decide⟩

/-- C4 amended: the extraction scans most-recent-first, stops at the
first assistant turn containing the "Function:" marker, returns the
empty record when no turn has a marker, never extracts a region, and
extracts a drug only from the hardcoded set
{Aspirin, Ibuprofen, Medication X}. -/
theorem extraction_scan_spec :
    (∀ h : List Turn, (∀ u ∈ h, hasMarker u = false) →
      extractContext h = ⟨none, none, none, none⟩) ∧
    (∀ (pre post : List Turn) (t : Turn), hasMarker t = true →
      (∀ u ∈ post, hasMarker u = false) →
      extractContext (pre ++ t :: post) = markerRecord t.content) ∧
    (∀ c, (markerRecord c).lastRegion = none) ∧
    (∀ c, (markerRecord c).lastDrug = none ∨ (markerRecord c).lastDrug = some "Aspirin" ∨
      (markerRecord c).lastDrug = some "Ibuprofen" ∨
      (markerRecord c).lastDrug = some "Medication X") :=
  ⟨extractContext_no_marker, extractContext_first_marker, fun _ => rfl,
    markerRecord_lastDrug_cases⟩

/-- C4 witness: no-marker history yields the empty record; the most
recent marker turn wins even with older marker turns and newer
non-marker turns present. -/
theorem extraction_scan_spec_witness :
    extractContext [{ role := "user", content := "hello" },
      { role := "assistant", content := "no marker here" }] = ⟨none, none, none, none⟩ ∧
    extractContext
      ([{ role := "assistant", content := "Function: regional_analysis" }] ++
        { role := "assistant", content := "Function: compare_drugs" } ::
        [{ role := "user", content := "ok" }]) =
      markerRecord "Function: compare_drugs" :=
  ⟨extraction_scan_spec.1 _ (by decide),
   extraction_scan_spec.2.1 [{ role := "assistant", content := "Function: regional_analysis" }]
     [{ role := "user", content := "ok" }]
     { role := "assistant", content := "Function: compare_drugs" } (by decide) (by decide)⟩

/-- C5 counterexample: "Total sales" contains the direct-question
phrase "total sales" and no social phrase, yet the rule-based path
with empty context classifies it as trend analysis — the enhanced
cascade's trend branch (matching "sales") runs before the base
cascade's direct-question step. -/
theorem direct_priority_counterexample :
    (["best seller", "top performer", "worst seller", "total sales", "revenue",
      "how much", "how many"].any fun p => pyIn p (pyLower "Total sales")) = true ∧
    socialHit (pyLower "Total sales") = false ∧
    demoFunctionCallingWithContext "Total sales" [] =
      some (.functionCall "analyze_sales_trend" [("drug_name", none), ("region", none)]
        (some "I\x27ll analyze the sales trends.")) := by
  refine ⟨by decide, by decide, by decide⟩

/-- C5 amended: within the base cascade `_demo_function_calling`,
direct-question classification does take priority: any utterance
containing one of the direct-question phrases and no social phrase
resolves to `answer_direct_question` with the full utterance as the
question; and the concrete example "What is our best seller?" resolves
that way even through the full contextual path with empty context. -/
theorem direct_question_priority :
    (∀ q, (["best seller", "top performer", "worst seller", "total sales", "revenue",
        "how much", "how many"].any fun p => pyIn p (pyLower q)) = true →
      socialHit (pyLower q) = false →
      demoFunctionCalling q = some (directQuestionResult q)) ∧
    demoFunctionCallingWithContext "What is our best seller?" [] =
      some (directQuestionResult "What is our best seller?") := by
  constructor
  · intro q h7 hsoc
    have hdq : directQuestionHit (pyLower q) = true := by
      rcases List.any_eq_true.mp h7 with ⟨p, hp, hin⟩
      have hp8 : p ∈ ["best seller", "top performer", "highest sales", "worst seller",
          "total sales", "revenue", "how much", "how many"] := by
        fin_cases hp <;> simp
      have h8 : (["best seller", "top performer", "highest sales", "worst seller",
          "total sales", "revenue", "how much", "how many"].any
            fun p => pyIn p (pyLower q)) = true :=
        List.any_eq_true.mpr ⟨p, hp8, hin⟩
      unfold directQuestionHit
      rw [h8]
      rfl
    unfold socialHit at hsoc
    rw [Bool.or_eq_false_iff] at hsoc
    obtain ⟨hsoc, hf⟩ := hsoc
    rw [Bool.or_eq_false_iff] at hsoc
    obtain ⟨hsoc, ht⟩ := hsoc
    rw [Bool.or_eq_false_iff] at hsoc
    obtain ⟨hsoc, hc⟩ := hsoc
    rw [Bool.or_eq_false_iff] at hsoc
    obtain ⟨hg, hh⟩ := hsoc
    unfold demoFunctionCalling
    simp only [hg, hh, hc, ht, hf, hdq, Bool.false_eq_true, if_false, if_true]
  · decide

/-- C5 witness: the general base-cascade statement applied at a
concrete direct question. -/
theorem direct_question_priority_witness :
    demoFunctionCalling "How much revenue did we make" =
      some (directQuestionResult "How much revenue did we make") :=
  direct_question_priority.1 "How much revenue did we make" (by decide) (by decide)

/-- C6 counterexample: a remote reply proposing the function "foobar",
which is outside the five-function enum, is returned to the caller
as-is instead of being treated as a failed call. -/
theorem unknown_function_counterexample :
    processQueryWithFunctions true false true
      (fun _ => RemoteOutcome.message
        [{ functionName := "foobar", argumentsParse := some [("x", some "1")] }] none)
      "q" "" [] =
      some (.functionCall "foobar" [("x", some "1")] (some remoteDefaultResp)) ∧
    recognizedFunctions.contains "foobar" = false :=
  ⟨rfl, by decide⟩

/-- C6 amended: the orchestrator performs no validation of the proposed
function name: any structured invocation whose arguments payload parses
is returned as-is, whatever its name; fallback to the rule-based
resolver happens only when the call raises or the arguments payload
fails to parse. -/
theorem remote_tool_call_no_validation (name : String) (args : FunctionArgs)
    (c : Option String) (q dc : String) (h : List Turn) :
    processQueryWithFunctions true false true
        (fun _ => RemoteOutcome.message
          [{ functionName := name, argumentsParse := some args }] c) q dc h =
      some (.functionCall name args (pyOrStr c remoteDefaultResp)) ∧
    processQueryWithFunctions true false true
        (fun _ => RemoteOutcome.message
          [{ functionName := name, argumentsParse := none }] c) q dc h =
      demoFunctionCallingWithContext q h :=
  ⟨rfl, rfl⟩

/-- C7 counterexample: a successful remote call can return a function
name outside the enum, an argument key outside
{drug_name, region, question}, and an empty-string value — the result
is handed to the caller violating every part of the invariant. -/
theorem invariant_break_by_remote :
    processQueryWithFunctions true false true
      (fun _ => RemoteOutcome.message
        [{ functionName := "mystery_fn", argumentsParse := some [("bogus", some "")] }] none)
      "q" "" [] =
      some (.functionCall "mystery_fn" [("bogus", some "")] (some remoteDefaultResp)) ∧
    resultInvariant (.functionCall "mystery_fn" [("bogus", some "")]
      (some remoteDefaultResp)) = false :=
  ⟨rfl, by decide⟩

/-- C7 amended: every function-call result produced by the rule-based
resolution path (demo mode, or fallback) satisfies the invariant: its
name is one of the five recognized functions, its argument keys are
among drug_name, region and question, and an absent argument is an
explicit null, never an empty string. Remote-path results are passed
through unvalidated. -/
theorem rule_based_result_invariant (q : String) (h : List Turn) (r : DemoResult)
    (hr : demoFunctionCallingWithContext q h = some r) :
    resultInvariant r = true := by
  have hlr : (extractContext h).lastRegion ≠ some "" := by
    rw [extractContext_lastRegion]
    intro hc
    cases hc
  exact withContextCore_inv q (extractContext h) r (extractContext_lastDrug h) hlr hr

/-- C7 witness: the invariant, concretely, for the resolution of
"compare drugs" against an empty history. -/
theorem rule_based_result_invariant_witness :
    resultInvariant (compareResult none) = true :=
  rule_based_result_invariant "compare drugs" [] (compareResult none) (by decide)

/-- C8: the request built for the remote service consists of the system
instruction, at most the last 8 history turns — a suffix of the history
— and the new utterance; within the window, a turn whose content
exceeds 800 characters is compacted to its first 400 characters, an
elision marker, and its last 200 characters, while a turn of at most
800 characters is passed verbatim. -/
theorem remote_request_window (sys q : String) (h : List Turn) :
    buildMessages sys h q =
      ({ role := "system", content := sys } ::
        (recentWindow h).map fun m => { role := m.role, content := compactContent m.content }) ++
        [{ role := "user", content := q }] ∧
    (recentWindow h).length ≤ 8 ∧
    recentWindow h <:+ h ∧
    (∀ m ∈ recentWindow h, pyLen m.content ≤ 800 → compactContent m.content = m.content) ∧
    (∀ m ∈ recentWindow h, 800 < pyLen m.content →
      compactContent m.content =
        pyTake m.content 400 ++ "\n...[analysis results]...\n" ++
          pyDrop m.content (pyLen m.content - 200)) := by
  refine ⟨rfl, ?_, ?_, ?_, ?_⟩
  · unfold recentWindow
    split_ifs with hl
    · rw [List.length_drop]
      omega
    · omega
  · unfold recentWindow
    split_ifs with hl
    · exact List.drop_suffix _ _
    · exact List.suffix_refl h
  · intro m hm hlen
    unfold compactContent
    rw [if_neg (by omega)]
  · intro m hm hlen
    unfold compactContent
    rw [if_pos hlen]

/-- C8 witness: an 801-character turn is compacted, a short turn is
verbatim, and a 9-turn history is windowed to at most 8. -/
theorem remote_request_window_witness :
    compactContent (String.mk (List.replicate 801 'a')) =
      pyTake (String.mk (List.replicate 801 'a')) 400 ++ "\n...[analysis results]...\n" ++
        pyDrop (String.mk (List.replicate 801 'a'))
          (pyLen (String.mk (List.replicate 801 'a')) - 200) ∧
    compactContent "short" = "short" ∧
    (recentWindow (List.replicate 9 ({ role := "user", content := "x" } : Turn))).length ≤ 8 := by
  refine ⟨?_, ?_, ?_⟩
  · exact (remote_request_window "s" "p"
      [⟨"assistant", String.mk (List.replicate 801 'a')⟩]).2.2.2.2
      ⟨"assistant", String.mk (List.replicate 801 'a')⟩
      (by simp [recentWindow]) (by decide)
  · exact (remote_request_window "s" "p"
      [⟨"assistant", "short"⟩]).2.2.2.1 ⟨"assistant", "short"⟩
      (by simp [recentWindow]) (by decide)
  · exact (remote_request_window "s" "p"
      (List.replicate 9 ⟨"user", "x"⟩)).2.1

/-- C9: an utterance that is exactly a greeting word ("hi", "hello",
"hey", in any letter case) resolves through the rule-based contextual
path to the fixed conversational greeting reply, whatever the
conversation history — never to a function call. -/
theorem greeting_conversational (q : String) (h : List Turn)
    (hg : pyLower q = "hi" ∨ pyLower q = "hello" ∨ pyLower q = "hey") :
    demoFunctionCallingWithContext q h = some (.conversational (some helloResp)) := by
  unfold demoFunctionCallingWithContext
  rcases hg with hq | hq | hq <;>
  · rw [withContextCore_eq_enhanced q _ (by rw [hq]; decide) (by rw [hq]; decide)
      (by rw [hq]; decide)]
    unfold demoFunctionCallingEnhanced demoFunctionCalling
    rw [hq]
    rfl

/-- C9 witness: "Hey" with a function-call-bearing history still gets
the conversational greeting. -/
theorem greeting_conversational_witness :
    demoFunctionCallingWithContext "Hey"
      [{ role := "assistant", content := "Function: compare_drugs" }] =
      some (.conversational (some helloResp)) :=
  greeting_conversational "Hey" _ (by decide)

/-- C10: the public demo-mode entry `_demo_function_calling_with_context`
is total — it returns a result dict for every utterance and history —
although the base cascade alone is not: its bare-drug-mention branch
returns `None` (for drug-bearing utterances longer than 3 tokens with
no keyword), `None` can only arise when a drug is detected, and the
enhanced cascade resolves every drug-bearing utterance in its own
comparison or trend branch before delegating to the base cascade. -/
theorem with_context_total :
    (∀ (q : String) (h : List Turn), (demoFunctionCallingWithContext q h).isSome = true) ∧
    demoFunctionCalling "aspirin is wonderful today truly" = none ∧
    (∀ q, demoFunctionCalling q = none → (detectDrug (pyLower q)).isSome = true) ∧
    (∀ q, (detectDrug (pyLower q)).isSome = true →
      ∃ args rsp,
        demoFunctionCallingEnhanced q = some (.functionCall "compare_drugs" args rsp) ∨
        demoFunctionCallingEnhanced q = some (.functionCall "analyze_sales_trend" args rsp)) := by
  refine ⟨fun q h => ?_, by decide, fun q hnone => ?_, fun q hds => ?_⟩
  · have := demoFunctionCallingWithContext_ok q h
    rcases hres : demoFunctionCallingWithContext q h with _ | r
    · rw [hres] at this
      cases this
    · rfl
  · rcases hd : detectDrug (pyLower q) with _ | d
    · exfalso
      have hok := demoFunctionCalling_ok_of_no_drug q hd
      rw [hnone] at hok
      cases hok
    · rfl
  · unfold demoFunctionCallingEnhanced
    by_cases hc : enhancedComparisonHit (pyLower q) = true
    · exact ⟨_, _, Or.inl (by rw [if_pos hc]; rfl)⟩
    · have htr : enhancedTrendHit (pyLower q) (detectDrug (pyLower q)) = true := by
        unfold enhancedTrendHit
        rw [hds]
        rfl
      exact ⟨_, _, Or.inr (by rw [if_neg hc, if_pos htr]; rfl)⟩

/-- C10 witness: totality at a concrete input, the concrete `None`
return of the base cascade, and the enhanced cascade resolving a
drug-bearing utterance. -/
theorem with_context_total_witness :
    (demoFunctionCallingWithContext "aspirin is wonderful today truly"
      [{ role := "user", content := "hello" }]).isSome = true ∧
    (detectDrug (pyLower "aspirin is wonderful today truly")).isSome = true ∧
    ∃ args rsp,
      demoFunctionCallingEnhanced "aspirin" = some (.functionCall "compare_drugs" args rsp) ∨
      demoFunctionCallingEnhanced "aspirin" = some (.functionCall "analyze_sales_trend" args rsp) :=
  ⟨with_context_total.1 "aspirin is wonderful today truly"
      [{ role := "user", content := "hello" }],
   with_context_total.2.2.1 "aspirin is wonderful today truly" with_context_total.2.1,
   with_context_total.2.2.2 "aspirin" (by decide)⟩

end HealthcareDemo
